import Mathlib

/-!
Verification of the work-tracker backend core: the project permission
matrix, the sprint lifecycle state machine with its metrics and burndown
tracking, the sprint controllers (start / complete / cancel / delete /
update / addTasksToSprint), and the admin scoped-user-id helper.

The definitions below are a shallow embedding of the JavaScript source:
ids are `Nat`, timestamps are `Nat` (milliseconds), story points are `Int`
(JS numbers), roles and statuses are the literal strings the source
compares against, fallible operations return `Except` or an `ApiResult`,
and the mongo collections are lists inside an explicit `Store` that the
controller functions thread through.
-/

namespace WorkTracker

/-- Milliseconds in a day; used to normalize a timestamp to midnight,
mirroring `date.setHours(0, 0, 0, 0)` in the source. -/
def msPerDay : Nat := 1000 * 60 * 60 * 24

/-- Normalize a timestamp to the start of its calendar day. -/
def startOfDay (t : Nat) : Nat := (t / msPerDay) * msPerDay

/-- One entry of `metrics.burndownData` in the Sprint schema. -/
structure BurndownPoint where
  date : Nat
  remainingPoints : Int
  completedPoints : Int
deriving Repr, DecidableEq

/-- The `metrics` subdocument of the Sprint schema. -/
structure SprintMetrics where
  totalStoryPoints : Int := 0
  completedStoryPoints : Int := 0
  totalTasks : Nat := 0
  completedTasks : Nat := 0
  velocity : Int := 0
  burndownData : List BurndownPoint := []
deriving Repr, DecidableEq

/-- The Sprint document (fields relevant to the lifecycle core). -/
structure Sprint where
  id : Nat
  project : Nat
  team : Nat
  name : String := ""
  startDate : Nat := 0
  endDate : Nat := 1
  status : String := "planning"
  goal : String := ""
  capacity : Int := 0
  metrics : SprintMetrics := {}
  actualStartDate : Option Nat := none
  actualEndDate : Option Nat := none
deriving Repr, DecidableEq

/-- The Task document (fields relevant to sprint membership and metrics).
`sprint = none` encodes an unset sprint reference. -/
structure Task where
  id : Nat
  project : Nat
  team : Nat
  sprint : Option Nat := none
  status : String := "todo"
  storyPoints : Option Int := none
deriving Repr, DecidableEq

/-- The Project document (field relevant to sprint lifecycle). -/
structure Project where
  id : Nat
  team : Nat
  currentSprint : Option Nat := none
deriving Repr, DecidableEq

/-- The TeamMember document. -/
structure TeamMember where
  team : Nat
  user : Nat
  role : String
  status : String := "active"
  reportingManager : Option Nat := none
deriving Repr, DecidableEq

/-- A team membership as consumed by the permission matrix. -/
structure TeamMembership where
  user : Nat := 0
  team : Nat := 0
  role : String
  status : String := "active"
deriving Repr, DecidableEq

/-- A project membership as consumed by the permission matrix. -/
structure ProjectMembership where
  user : Nat := 0
  project : Nat := 0
  role : String
deriving Repr, DecidableEq

/-- The `PROJECT_PERMISSIONS` table from the permission middleware:
action name to the list of project roles allowed to perform it. -/
def PROJECT_PERMISSIONS : List (String × List String) :=
  [ ("EDIT_PROJECT", ["owner", "manager"]),
    ("DELETE_PROJECT", ["owner"]),
    ("ARCHIVE_PROJECT", ["owner", "manager"]),
    ("INVITE_MEMBERS", ["owner", "manager"]),
    ("REMOVE_MEMBERS", ["owner", "manager"]),
    ("ASSIGN_TASKS", ["owner", "manager", "contributor"]),
    ("CREATE_SPRINT", ["owner", "manager"]),
    ("START_SPRINT", ["owner", "manager"]),
    ("COMPLETE_SPRINT", ["owner", "manager"]),
    ("EDIT_SPRINT", ["owner", "manager"]),
    ("CREATE_TASK", ["owner", "manager", "contributor"]),
    ("EDIT_OWN_TASK", ["owner", "manager", "contributor"]),
    ("EDIT_ANY_TASK", ["owner", "manager"]),
    ("DELETE_TASK", ["owner", "manager"]),
    ("VIEW_PROJECT", ["owner", "manager", "contributor", "viewer"]),
    ("VIEW_SPRINT", ["owner", "manager", "contributor", "viewer"]) ]

/-- `TEAM_PERMISSIONS[permission] || []` for the project table: unknown
actions yield the empty role list. -/
def projectAllowedRoles (permission : String) : List String :=
  match PROJECT_PERMISSIONS.lookup permission with
  | some roles => roles
  | none => []

/-- `checkProjectPermission` from the permission middleware: team admins
pass unconditionally; otherwise a project membership is required and its
role is looked up in the `PROJECT_PERMISSIONS` table. -/
def checkProjectPermission (teamMembership : Option TeamMembership)
    (projectMembership : Option ProjectMembership) (permission : String) : Bool :=
  if teamMembership.any (fun tm => tm.role == "admin") then
    true
  else
    match projectMembership with
    | none => false
    | some pm => (projectAllowedRoles permission).contains pm.role

/-- `sprintSchema.methods.start`: only a sprint in planning can be
started; on success the status becomes active, the actual start date is
recorded and the burndown series is reset to a single seed point. -/
def Sprint.start (s : Sprint) (now : Nat) : Except String Sprint :=
  if s.status != "planning" then
    .error "Only sprints in planning status can be started"
  else
    .ok { s with
      status := "active"
      actualStartDate := some now
      metrics := { s.metrics with
        burndownData := [⟨now, s.metrics.totalStoryPoints, 0⟩] } }

/-- `sprintSchema.methods.complete`: only an active sprint can be
completed; on success the status becomes completed, the actual end date
is recorded, velocity is frozen to the completed story points and a final
burndown point is appended. -/
def Sprint.complete (s : Sprint) (now : Nat) : Except String Sprint :=
  if s.status != "active" then
    .error "Only active sprints can be completed"
  else
    .ok { s with
      status := "completed"
      actualEndDate := some now
      metrics := { s.metrics with
        velocity := s.metrics.completedStoryPoints
        burndownData := s.metrics.burndownData ++
          [⟨now, s.metrics.totalStoryPoints - s.metrics.completedStoryPoints,
            s.metrics.completedStoryPoints⟩] } }

/-- `sprintSchema.methods.cancel`: a completed sprint cannot be
cancelled; any other sprint becomes cancelled. -/
def Sprint.cancel (s : Sprint) : Except String Sprint :=
  if s.status == "completed" then
    .error "Cannot cancel a completed sprint"
  else
    .ok { s with status := "cancelled" }

/-- Story points of a task with a missing value treated as 0
(`task.storyPoints || 0`). -/
def Task.points (t : Task) : Int := t.storyPoints.getD 0

/-- `sprintSchema.methods.updateMetrics`: recompute task counts and story
point totals from the tasks whose sprint reference is this sprint
(`Task.find({ sprint: this._id })`). The burndown series is untouched. -/
def Sprint.updateMetrics (s : Sprint) (tasks : List Task) : Sprint :=
  let ts := tasks.filter (fun t => t.sprint == some s.id)
  let done := ts.filter (fun t => t.status == "completed")
  { s with metrics := { s.metrics with
      totalTasks := ts.length
      completedTasks := done.length
      totalStoryPoints := (ts.map Task.points).sum
      completedStoryPoints := (done.map Task.points).sum } }

/-- Update the first burndown point falling on `day` (the source mutates
the result of `burndownData.find(...)`). -/
def updateBurndownFirst (day : Nat) (remaining completed : Int) :
    List BurndownPoint → List BurndownPoint
  | [] => []
  | p :: ps =>
    if startOfDay p.date == day then
      { p with remainingPoints := remaining, completedPoints := completed } :: ps
    else
      p :: updateBurndownFirst day remaining completed ps

/-- `sprintSchema.methods.addBurndownDataPoint`: at most one burndown
point per calendar day — an existing point for today is updated in place,
otherwise a new point dated at midnight is appended. -/
def Sprint.addBurndownDataPoint (s : Sprint) (now : Nat) : Sprint :=
  let remaining := s.metrics.totalStoryPoints - s.metrics.completedStoryPoints
  let today := startOfDay now
  let bd := s.metrics.burndownData
  if bd.any (fun p => startOfDay p.date == today) then
    { s with metrics := { s.metrics with
        burndownData := updateBurndownFirst today remaining s.metrics.completedStoryPoints bd } }
  else
    { s with metrics := { s.metrics with
        burndownData := bd ++ [⟨today, remaining, s.metrics.completedStoryPoints⟩] } }

/-- Outcome of a controller call: an HTTP success or a failure response
with its status code and message. -/
inductive ApiResult where
  | success : ApiResult
  | failure (status : Nat) (message : String) : ApiResult
deriving Repr, DecidableEq

/-- The persistent collections the sprint controllers read and write. -/
structure Store where
  sprints : List Sprint
  projects : List Project
  tasks : List Task
deriving Repr, DecidableEq

/-- Persist a sprint document (`sprint.save()`): replace the stored
sprint with the same id. -/
def saveSprint (st : Store) (s : Sprint) : Store :=
  { st with sprints := st.sprints.map (fun x => if x.id == s.id then s else x) }

/-- `Project.findByIdAndUpdate(pid, { currentSprint: sid })`. -/
def setCurrentSprint (st : Store) (pid : Nat) (sid : Nat) : Store :=
  let ps := st.projects.map (fun p => if p.id == pid then { p with currentSprint := some sid } else p)
  { st with projects := ps }

/-- `Project.findByIdAndUpdate(pid, { $unset: { currentSprint: 1 } })`. -/
def unsetCurrentSprint (st : Store) (pid : Nat) : Store :=
  let ps := st.projects.map (fun p => if p.id == pid then { p with currentSprint := none } else p)
  { st with projects := ps }

/-- `Task.updateMany({ sprint: sid }, { $unset: { sprint: 1 } })`. -/
def clearSprintFromTasks (st : Store) (sid : Nat) : Store :=
  let ts := st.tasks.map (fun t => if t.sprint == some sid then { t with sprint := none } else t)
  { st with tasks := ts }

/-- Look a sprint up by id (`Sprint.findById`). -/
def findSprint (st : Store) (sprintId : Nat) : Option Sprint :=
  st.sprints.find? (fun s => s.id == sprintId)

/-- Look a project up by id (`Project.findById`). -/
def findProject (st : Store) (projectId : Nat) : Option Project :=
  st.projects.find? (fun p => p.id == projectId)

/-- The `startSprint` controller: 404 when the sprint is missing; 400
when any sprint of the same project is already active; otherwise the
metrics are recomputed and saved, the model-level start is attempted
(its failure surfaces as a 400 with the thrown message), and on success
the project record's `currentSprint` is pointed at this sprint. -/
def startSprint (st : Store) (sprintId : Nat) (now : Nat) : Store × ApiResult :=
  match findSprint st sprintId with
  | none => (st, .failure 404 "Sprint not found")
  | some sprint =>
    match st.sprints.find? (fun s => s.project == sprint.project && s.status == "active") with
    | some _ =>
      (st, .failure 400
        "Another sprint is already active. Complete it before starting a new one.")
    | none =>
      let sprint1 := sprint.updateMetrics st.tasks
      let st1 := saveSprint st sprint1
      match sprint1.start now with
      | .error msg => (st1, .failure 400 msg)
      | .ok sprint2 =>
        let st2 := saveSprint st1 sprint2
        (setCurrentSprint st2 sprint.project sprint.id, .success)

/-- Where `completeSprint` sends incomplete tasks, from `req.body`:
absent, the literal string backlog (keep the sprint reference), or a
target sprint id. -/
inductive MoveTarget where
  | backlog : MoveTarget
  | toSprint (sid : Nat) : MoveTarget
deriving Repr, DecidableEq

/-- `Task.updateMany({ sprint: sid, status: { $ne: "completed" } },
{ sprint: target })`. -/
def moveIncompleteTasks (st : Store) (sid : Nat) (target : Nat) : Store :=
  let ts := st.tasks.map (fun t =>
    if t.sprint == some sid && t.status != "completed" then { t with sprint := some target } else t)
  { st with tasks := ts }

/-- The `completeSprint` controller: 404 when the sprint is missing;
metrics are recomputed and saved, the model-level complete is attempted
(failure surfaces as a 400), and on success the project record's
`currentSprint` is unset unconditionally and incomplete tasks are moved
when a target sprint id was supplied. -/
def completeSprint (st : Store) (sprintId : Nat) (now : Nat)
    (moveIncompleteTo : Option MoveTarget) : Store × ApiResult :=
  match findSprint st sprintId with
  | none => (st, .failure 404 "Sprint not found")
  | some sprint =>
    let sprint1 := sprint.updateMetrics st.tasks
    let st1 := saveSprint st sprint1
    match sprint1.complete now with
    | .error msg => (st1, .failure 400 msg)
    | .ok sprint2 =>
      let st2 := saveSprint st1 sprint2
      let st3 := unsetCurrentSprint st2 sprint.project
      match moveIncompleteTo with
      | some (.toSprint target) => (moveIncompleteTasks st3 sprint.id target, .success)
      | _ => (st3, .success)

/-- The `cancelSprint` controller: 404 when the sprint is missing; the
model-level cancel is attempted (failure surfaces as a 400); on success
the project record's `currentSprint` is unset only when it currently
points at this sprint, and all tasks of the sprint are returned to the
backlog. A missing project record makes the handler throw, surfacing as
a 400. -/
def cancelSprint (st : Store) (sprintId : Nat) : Store × ApiResult :=
  match findSprint st sprintId with
  | none => (st, .failure 404 "Sprint not found")
  | some sprint =>
    match sprint.cancel with
    | .error msg => (st, .failure 400 msg)
    | .ok sprint1 =>
      let st1 := saveSprint st sprint1
      match findProject st1 sprint.project with
      | none => (st1, .failure 400 "Error cancelling sprint")
      | some project =>
        let st2 :=
          if project.currentSprint == some sprint.id then
            unsetCurrentSprint st1 sprint.project
          else st1
        (clearSprintFromTasks st2 sprint.id, .success)

/-- Remove a sprint document (`sprint.deleteOne()`). -/
def removeSprint (st : Store) (sid : Nat) : Store :=
  { st with sprints := st.sprints.filter (fun s => s.id != sid) }

/-- The `deleteSprint` controller: 404 when the sprint is missing; 400
when the sprint is active or completed; otherwise its tasks are moved
back to the backlog and the sprint document is removed. -/
def deleteSprint (st : Store) (sprintId : Nat) : Store × ApiResult :=
  match findSprint st sprintId with
  | none => (st, .failure 404 "Sprint not found")
  | some sprint =>
    if sprint.status == "active" || sprint.status == "completed" then
      (st, .failure 400 "Cannot delete an active or completed sprint. Cancel it first.")
    else
      let st1 := clearSprintFromTasks st sprint.id
      (removeSprint st1 sprint.id, .success)

/-- The update payload of the `updateSprint` controller (`req.body`);
absent fields are left unchanged by `findByIdAndUpdate`. -/
structure SprintUpdate where
  name : Option String := none
  goal : Option String := none
  status : Option String := none
  capacity : Option Int := none
deriving Repr, DecidableEq

/-- The sprint status enum of the schema, enforced by `runValidators`. -/
def sprintStatusValues : List String := ["planning", "active", "completed", "cancelled"]

/-- Apply an update payload to a sprint document. -/
def applySprintUpdate (s : Sprint) (u : SprintUpdate) : Sprint :=
  { s with
    name := u.name.getD s.name
    goal := u.goal.getD s.goal
    status := u.status.getD s.status
    capacity := u.capacity.getD s.capacity }

/-- The `updateSprint` controller: 404 when the sprint is missing; 400
when the sprint is completed; 400 when a supplied status is outside the
schema enum; otherwise the payload is applied and saved. -/
def updateSprint (st : Store) (sprintId : Nat) (u : SprintUpdate) : Store × ApiResult :=
  match findSprint st sprintId with
  | none => (st, .failure 404 "Sprint not found")
  | some sprint =>
    if sprint.status == "completed" then
      (st, .failure 400 "Cannot update a completed sprint")
    else if (match u.status with
             | some v => !(sprintStatusValues.contains v)
             | none => false) then
      (st, .failure 400 "Error updating sprint")
    else
      (saveSprint st (applySprintUpdate sprint u), .success)

/-- The `addTasksToSprint` controller: 400 on an empty id list; 404 when
the sprint is missing; 400 when the sprint is completed or cancelled;
otherwise every task whose id is in the supplied list has its sprint
reference set to this sprint (`Task.updateMany({ _id: { $in: taskIds } },
{ sprint: sprintId })` — no team or project filter), and the sprint
metrics are recomputed. -/
def addTasksToSprint (st : Store) (sprintId : Nat) (taskIds : List Nat) :
    Store × ApiResult :=
  if taskIds.isEmpty then
    (st, .failure 400 "Task IDs array is required")
  else
    match findSprint st sprintId with
    | none => (st, .failure 404 "Sprint not found")
    | some sprint =>
      if sprint.status == "completed" || sprint.status == "cancelled" then
        (st, .failure 400 "Cannot add tasks to a completed or cancelled sprint")
      else
        let ts := st.tasks.map (fun t =>
          if taskIds.contains t.id then { t with sprint := some sprintId } else t)
        let st1 := { st with tasks := ts }
        let sprint1 := sprint.updateMetrics st1.tasks
        (saveSprint st1 sprint1, .success)

/-- `isAdminOrProjectManager` from the admin controller. -/
def isAdminOrProjectManager (role : String) : Bool :=
  role == "admin" || role == "project_manager"

/-- JavaScript `new Set(list)` materialized in insertion order: keep the
first occurrence of each element. -/
def insertionDedup (l : List Nat) : List Nat :=
  l.foldl (fun acc a => if acc.contains a then acc else acc ++ [a]) []

/-- `getScopedUserIds` from the admin controller: admins and project
managers see every active team member; anyone else sees themselves plus
their active direct reports, deduplicated through a Set. -/
def getScopedUserIds (members : List TeamMember) (teamId : Nat)
    (requesterId : Nat) (role : String) : List Nat :=
  if isAdminOrProjectManager role then
    (members.filter (fun m => m.team == teamId && m.status == "active")).map
      (fun m => m.user)
  else
    let directReportIds :=
      (members.filter (fun m =>
        m.team == teamId && m.status == "active" &&
        m.reportingManager == some requesterId)).map (fun m => m.user)
    insertionDedup (requesterId :: directReportIds)

/-! ### Helper lemmas -/

theorem startOfDay_idem (t : Nat) : startOfDay (startOfDay t) = startOfDay t := by
  unfold startOfDay
  rw [Nat.mul_div_cancel _ (by decide : 0 < msPerDay)]

theorem updateBurndownFirst_idem (day : Nat) (r c : Int) (bd : List BurndownPoint) :
    updateBurndownFirst day r c (updateBurndownFirst day r c bd) =
      updateBurndownFirst day r c bd := by
  induction bd with
  | nil => rfl
  | cons p ps ih =>
    by_cases h : startOfDay p.date = day
    · simp [updateBurndownFirst, h]
    · simp [updateBurndownFirst, h, ih]

theorem updateBurndownFirst_preserves_day (day d : Nat) (r c : Int)
    (bd : List BurndownPoint) :
    ((updateBurndownFirst day r c bd).any (fun p => startOfDay p.date == d)) =
      (bd.any (fun p => startOfDay p.date == d)) := by
  induction bd with
  | nil => rfl
  | cons p ps ih =>
    by_cases h : startOfDay p.date = day
    · simp [updateBurndownFirst, h]
    · simp [updateBurndownFirst, h, ih]

theorem updateBurndownFirst_append (day : Nat) (r c : Int) (bd : List BurndownPoint)
    (x : BurndownPoint) (h : bd.any (fun p => startOfDay p.date == day) = false) :
    updateBurndownFirst day r c (bd ++ [x]) = bd ++ updateBurndownFirst day r c [x] := by
  induction bd with
  | nil => rfl
  | cons p ps ih =>
    rw [List.any_cons, Bool.or_eq_false_iff] at h
    simp [updateBurndownFirst, h.1, ih h.2]

theorem addBurndownDataPoint_idem (s : Sprint) (now1 now2 : Nat)
    (h : startOfDay now2 = startOfDay now1) :
    (s.addBurndownDataPoint now1).addBurndownDataPoint now2 = s.addBurndownDataPoint now1 := by
  obtain ⟨i, pr, tmm, nm, sd, ed, stt, gl, cap, ⟨tp, cp, ttk, ctk, v, bd⟩, as0, ae0⟩ := s
  by_cases hday : bd.any (fun p => startOfDay p.date == startOfDay now1) = true
  · simp [Sprint.addBurndownDataPoint, hday, h, updateBurndownFirst_preserves_day,
      updateBurndownFirst_idem]
  · have hbd : bd.any (fun p => startOfDay p.date == startOfDay now1) = false := by
      simpa using hday
    have happ := updateBurndownFirst_append (startOfDay now1) (tp - cp) cp bd
      ⟨startOfDay now1, tp - cp, cp⟩ hbd
    simp [Sprint.addBurndownDataPoint, hbd, h, List.any_append, startOfDay_idem, happ,
      updateBurndownFirst]

/-! ### Demo fixtures used by concrete counterexamples and witnesses -/

/-- The C6 scenario sprint: in planning, capacity 0. -/
def sprintC6 : Sprint := { id := 1, project := 10, team := 100, capacity := 0 }

/-- The C6 scenario tasks: story points 3 (completed) and 5 (todo). -/
def tasksC6 : List Task :=
  [ { id := 21, project := 10, team := 100, sprint := some 1,
      status := "completed", storyPoints := some 3 },
    { id := 22, project := 10, team := 100, sprint := some 1,
      status := "todo", storyPoints := some 5 } ]

/-- The C8 scenario: a sprint in project 10 / team 100. -/
def sprintC8 : Sprint := { id := 1, project := 10, team := 100 }

/-- The C8 scenario: a backlog task belonging to a DIFFERENT project and
team than the target sprint. -/
def foreignTaskC8 : Task := { id := 7, project := 20, team := 200, storyPoints := some 2 }

/-- The C8 scenario store. -/
def storeC8 : Store :=
  { sprints := [sprintC8], projects := [{ id := 10, team := 100 }],
    tasks := [foreignTaskC8] }

/-! ### Claim theorems -/

/-- C2: `checkProjectPermission` returns true unconditionally for a team
admin (even with no project membership); otherwise it returns false when
the project membership is absent; otherwise it returns true exactly when
the project role is in the `PROJECT_PERMISSIONS` row of the action, and
an action absent from the table has the empty row, so it is denied. -/
theorem checkProjectPermission_spec (tm : TeamMembership) (pm? : Option ProjectMembership)
    (action : String) :
    (tm.role = "admin" → checkProjectPermission (some tm) pm? action = true)
    ∧ (tm.role ≠ "admin" → checkProjectPermission (some tm) none action = false)
    ∧ (∀ pm, tm.role ≠ "admin" →
        (checkProjectPermission (some tm) (some pm) action = true ↔
          pm.role ∈ projectAllowedRoles action))
    ∧ (PROJECT_PERMISSIONS.lookup action = none →
        projectAllowedRoles action = []
        ∧ (tm.role ≠ "admin" → checkProjectPermission (some tm) pm? action = false)) := by
  refine ⟨?_, ?_, ?_, ?_⟩
  · intro h
    simp [checkProjectPermission, h]
  · intro h
    simp [checkProjectPermission, h]
  · intro pm h
    simp [checkProjectPermission, h]
  · intro h
    refine ⟨by simp [projectAllowedRoles, h], ?_⟩
    intro h2
    cases pm? with
    | none => simp [checkProjectPermission, h2]
    | some pm => simp [checkProjectPermission, h2, projectAllowedRoles, h]

/-- C2 witness: a concrete team admin passes with no project membership;
a concrete member without project membership is denied; a contributor is
measured against the table row; an unknown action is denied. -/
theorem checkProjectPermission_spec_witness :
    checkProjectPermission (some { role := "admin" }) none "DELETE_PROJECT" = true
    ∧ checkProjectPermission (some { role := "member" }) none "DELETE_PROJECT" = false
    ∧ (checkProjectPermission (some { role := "member" }) (some { role := "owner" })
         "DELETE_PROJECT" = true ↔ "owner" ∈ projectAllowedRoles "DELETE_PROJECT")
    ∧ checkProjectPermission (some { role := "member" }) (some { role := "owner" })
        "NOT_A_REAL_ACTION" = false := by
  refine ⟨?_, ?_, ?_, ?_⟩
  · exact (checkProjectPermission_spec { role := "admin" } none "DELETE_PROJECT").1 rfl
  · exact (checkProjectPermission_spec { role := "member" } none "DELETE_PROJECT").2.1
      (by decide)
  · exact (checkProjectPermission_spec { role := "member" } (some { role := "owner" })
      "DELETE_PROJECT").2.2.1 { role := "owner" } (by decide)
  · exact ((checkProjectPermission_spec { role := "member" } (some { role := "owner" })
      "NOT_A_REAL_ACTION").2.2.2 (by decide)).2 (by decide)

/-- C6 counterexample: in the two-task scenario the seed burndown point
written by `start` records completedPoints = 0, not 3 as the claim
states (the claimed point {date, remaining 8, completed 3} is not what
the code produces). -/
theorem scenario_start_burndown_counterexample :
    (((sprintC6.updateMetrics tasksC6).start 500).toOption.map
        (fun s => s.metrics.burndownData)) = some [⟨500, 8, 0⟩]
    ∧ (((sprintC6.updateMetrics tasksC6).start 500).toOption.map
        (fun s => s.metrics.burndownData)) ≠ some [⟨500, 8, 3⟩] := by
  decide

/-- C6 amended: for the planning sprint with capacity 0 and the two
tasks (3 completed, 5 todo), `updateMetrics` yields totals 8/3 and
counts 2/1, and a subsequent `start` sets the status to active and seeds
the burndown with the single point {date = now, remaining 8, completed
0}. -/
theorem scenario_metrics_and_start_spec :
    (sprintC6.updateMetrics tasksC6).metrics.totalStoryPoints = 8
    ∧ (sprintC6.updateMetrics tasksC6).metrics.completedStoryPoints = 3
    ∧ (sprintC6.updateMetrics tasksC6).metrics.totalTasks = 2
    ∧ (sprintC6.updateMetrics tasksC6).metrics.completedTasks = 1
    ∧ (((sprintC6.updateMetrics tasksC6).start 500).toOption.map
        (fun s => (s.status, s.metrics.burndownData)))
      = some ("active", [⟨500, 8, 0⟩]) := by
  decide

/-- C7: `updateMetrics` is idempotent — a second call with an unchanged
task set reproduces the same document — and it never touches the
burndown series; moreover a repeated burndown refresh on the same
calendar day updates the existing point in place instead of appending a
duplicate. -/
theorem updateMetrics_idempotent_spec (s : Sprint) (tasks : List Task) (now : Nat) :
    (s.updateMetrics tasks).updateMetrics tasks = s.updateMetrics tasks
    ∧ (s.updateMetrics tasks).metrics.burndownData = s.metrics.burndownData
    ∧ (s.addBurndownDataPoint now).addBurndownDataPoint now = s.addBurndownDataPoint now := by
  refine ⟨?_, ?_, addBurndownDataPoint_idem s now now rfl⟩
  · obtain ⟨i, pr, tmm, nm, sd, ed, stt, gl, cap, ⟨tp, cp, ttk, ctk, v, bd⟩, as0, ae0⟩ := s
    simp [Sprint.updateMetrics]
  · obtain ⟨i, pr, tmm, nm, sd, ed, stt, gl, cap, ⟨tp, cp, ttk, ctk, v, bd⟩, as0, ae0⟩ := s
    simp [Sprint.updateMetrics]

/-- C8: tenant isolation fails in `addTasksToSprint` — the task update
filters only by task id, so a task of a different project and team than
the target sprint is mutated (attached to the sprint and counted into
its metrics). -/
theorem addTasksToSprint_cross_tenant_mutation :
    foreignTaskC8.project ≠ sprintC8.project
    ∧ foreignTaskC8.team ≠ sprintC8.team
    ∧ (addTasksToSprint storeC8 1 [7]).2 = ApiResult.success
    ∧ ((addTasksToSprint storeC8 1 [7]).1.tasks.map
        (fun t => (t.id, t.project, t.team, t.sprint))) = [(7, 20, 200, some 1)]
    ∧ ((addTasksToSprint storeC8 1 [7]).1.sprints.map
        (fun s => s.metrics.totalStoryPoints)) = [2] := by
  decide

/-- The C4 counterexample store: a cancelled sprint with one attached task. -/
def storeC4 : Store :=
  { sprints := [{ id := 2, project := 10, team := 100, status := "cancelled" }],
    projects := [{ id := 10, team := 100 }],
    tasks := [{ id := 31, project := 10, team := 100, sprint := some 2 }] }

/-- The C4 witness store: a planning sprint with one attached task. -/
def storeC4b : Store :=
  { sprints := [{ id := 3, project := 10, team := 100 }],
    projects := [{ id := 10, team := 100 }],
    tasks := [{ id := 32, project := 10, team := 100, sprint := some 3 }] }

/-- The planning sprint stored in `storeC4b`. -/
def planningSprintC4 : Sprint := { id := 3, project := 10, team := 100 }

/-- C4 counterexample: a cancelled sprint is not in planning, yet
`deleteSprint` succeeds on it (and clears its tasks), contradicting the
claim that delete is rejected for every sprint whose status is not
planning. -/
theorem deleteSprint_cancelled_succeeds_counterexample :
    ((storeC4.sprints.map (fun s => s.status)) = ["cancelled"])
    ∧ (deleteSprint storeC4 2).2 = ApiResult.success
    ∧ (deleteSprint storeC4 2).1.sprints = []
    ∧ ((deleteSprint storeC4 2).1.tasks.map (fun t => t.sprint)) = [none] := by
  decide

/-- C4 amended: delete is rejected with a Conflict error (and nothing is
mutated) exactly when the sprint is active or completed; a sprint in
planning — and likewise a cancelled sprint — is deleted, with every task
referencing it returned to the backlog. -/
theorem deleteSprint_guard_spec (st : Store) (sid : Nat) (sprint : Sprint)
    (hfind : findSprint st sid = some sprint) :
    ((sprint.status = "active" ∨ sprint.status = "completed") →
       deleteSprint st sid =
         (st, .failure 400 "Cannot delete an active or completed sprint. Cancel it first."))
    ∧ (sprint.status ≠ "active" → sprint.status ≠ "completed" →
       (deleteSprint st sid).2 = ApiResult.success
       ∧ (deleteSprint st sid).1.tasks
           = st.tasks.map (fun t =>
               if t.sprint = some sprint.id then { t with sprint := none } else t)
       ∧ (deleteSprint st sid).1.sprints
           = st.sprints.filter (fun s => s.id ≠ sprint.id)) := by
  constructor
  · intro h
    rcases h with h | h <;> simp [deleteSprint, hfind, h]
  · intro h1 h2
    simp [deleteSprint, hfind, h1, h2, clearSprintFromTasks, removeSprint]
    exact List.filter_congr (fun x _ => by by_cases hx : x.id = sprint.id <;> simp [hx])

/-- C4 witness: in the concrete planning-sprint store the delete
succeeds and the attached task is returned to the backlog. -/
theorem deleteSprint_guard_spec_witness :
    findSprint storeC4b 3 = some planningSprintC4
    ∧ (deleteSprint storeC4b 3).2 = ApiResult.success
    ∧ (deleteSprint storeC4b 3).1.tasks
        = storeC4b.tasks.map (fun t =>
            if t.sprint = some planningSprintC4.id then { t with sprint := none } else t) := by
  refine ⟨by decide, ?_, ?_⟩
  · exact ((deleteSprint_guard_spec storeC4b 3 planningSprintC4 (by decide)).2
      (by decide) (by decide)).1
  · exact ((deleteSprint_guard_spec storeC4b 3 planningSprintC4 (by decide)).2
      (by decide) (by decide)).2.1

/-- The C5 counterexample store: a single cancelled sprint. -/
def storeC5 : Store :=
  { sprints := [{ id := 4, project := 11, team := 100, status := "cancelled" }],
    projects := [], tasks := [] }

/-- C5 counterexample: the generic sprint update only rejects completed
sprints, so it can move a cancelled sprint back to active — cancelled is
not terminal under the operations of the core. -/
theorem updateSprint_reactivates_cancelled_counterexample :
    ((storeC5.sprints.map (fun s => s.status)) = ["cancelled"])
    ∧ (updateSprint storeC5 4 { status := some "active" }).2 = ApiResult.success
    ∧ ((updateSprint storeC5 4 { status := some "active" }).1.sprints.map
        (fun s => s.status)) = ["active"] := by
  decide

/-- C5 amended: completed is terminal under start, complete, cancel, the
generic update and metrics recomputation; cancelled is preserved by
start, complete, cancel and metrics recomputation, but the generic
sprint update (which only rejects completed sprints) can change a
cancelled sprint's status. -/
theorem terminal_status_spec (s : Sprint) (now : Nat) (tasks : List Task)
    (st : Store) (sid : Nat) (u : SprintUpdate) :
    (s.status = "completed" →
       (∃ e, s.start now = .error e)
       ∧ (∃ e, s.complete now = .error e)
       ∧ (∃ e, s.cancel = .error e)
       ∧ (s.updateMetrics tasks).status = "completed"
       ∧ (findSprint st sid = some s →
            updateSprint st sid u = (st, .failure 400 "Cannot update a completed sprint")))
    ∧ (s.status = "cancelled" →
       (∃ e, s.start now = .error e)
       ∧ (∃ e, s.complete now = .error e)
       ∧ (∀ s2, s.cancel = .ok s2 → s2.status = "cancelled")
       ∧ (s.updateMetrics tasks).status = "cancelled") := by
  constructor
  · intro h
    refine ⟨⟨"Only sprints in planning status can be started", by simp [Sprint.start, h]⟩,
      ⟨"Only active sprints can be completed", by simp [Sprint.complete, h]⟩,
      ⟨"Cannot cancel a completed sprint", by simp [Sprint.cancel, h]⟩,
      by simp [Sprint.updateMetrics, h], ?_⟩
    intro hfind
    simp [updateSprint, hfind, h]
  · intro h
    refine ⟨⟨"Only sprints in planning status can be started", by simp [Sprint.start, h]⟩,
      ⟨"Only active sprints can be completed", by simp [Sprint.complete, h]⟩, ?_,
      by simp [Sprint.updateMetrics, h]⟩
    intro s2 h2
    simp [Sprint.cancel, h] at h2
    simp [← h2]

/-- C5 witness: concrete completed and cancelled sprints are rejected or
left in place by every lifecycle operation. -/
theorem terminal_status_spec_witness :
    (∃ e, Sprint.start { id := 5, project := 11, team := 100, status := "completed" } 0
       = .error e)
    ∧ ((Sprint.updateMetrics { id := 6, project := 11, team := 100, status := "cancelled" }
         []).status = "cancelled") := by
  refine ⟨?_, ?_⟩
  · exact (terminal_status_spec { id := 5, project := 11, team := 100, status := "completed" }
      0 [] storeC5 5 {} |>.1 rfl).1
  · exact (terminal_status_spec { id := 6, project := 11, team := 100, status := "cancelled" }
      0 [] storeC5 6 {} |>.2 rfl).2.2.2

/-- C3: `complete` fails on every sprint that is not active; on an
active sprint it succeeds and the result is completed, carries the
actual end date, freezes velocity to the completedStoryPoints snapshot,
and appends one further burndown point with remaining = total -
completed and completed = completedStoryPoints, leaving the point totals
themselves unchanged. -/
theorem complete_spec (s : Sprint) (now : Nat) :
    (s.status ≠ "active" → s.complete now = .error "Only active sprints can be completed")
    ∧ (s.status = "active" →
       ∃ s2, s.complete now = .ok s2
         ∧ s2.status = "completed"
         ∧ s2.actualEndDate = some now
         ∧ s2.metrics.velocity = s.metrics.completedStoryPoints
         ∧ s2.metrics.burndownData
             = s.metrics.burndownData ++
               [⟨now, s.metrics.totalStoryPoints - s.metrics.completedStoryPoints,
                 s.metrics.completedStoryPoints⟩]
         ∧ s2.metrics.totalStoryPoints = s.metrics.totalStoryPoints
         ∧ s2.metrics.completedStoryPoints = s.metrics.completedStoryPoints) := by
  constructor
  · intro h
    simp [Sprint.complete, h]
  · intro h
    refine ⟨{ s with
                status := "completed"
                actualEndDate := some now
                metrics := { s.metrics with
                               velocity := s.metrics.completedStoryPoints
                               burndownData := s.metrics.burndownData ++
                                 [⟨now, s.metrics.totalStoryPoints -
                                     s.metrics.completedStoryPoints,
                                   s.metrics.completedStoryPoints⟩] } },
            ?_, rfl, rfl, rfl, rfl, rfl, rfl⟩
    simp [Sprint.complete, h]

/-- A concrete planning sprint used by the C3 witness. -/
def planningSprintC3 : Sprint := { id := 8, project := 12, team := 100 }

/-- A concrete active sprint with totals 8/3 used by the C3 witness. -/
def activeSprintC3 : Sprint :=
  { id := 9, project := 12, team := 100, status := "active",
    metrics := { totalStoryPoints := 8, completedStoryPoints := 3,
                 burndownData := [⟨100, 8, 0⟩] } }

/-- C3 witness: completing the concrete active sprint with totals 8/3
succeeds with velocity frozen at 3 and the burndown point {900, 5, 3}
appended; the concrete planning sprint is rejected. -/
theorem complete_spec_witness :
    (Sprint.complete planningSprintC3 900 = .error "Only active sprints can be completed")
    ∧ (∃ s2, Sprint.complete activeSprintC3 900 = .ok s2
        ∧ s2.status = "completed"
        ∧ s2.actualEndDate = some 900
        ∧ s2.metrics.velocity = activeSprintC3.metrics.completedStoryPoints
        ∧ s2.metrics.burndownData
            = activeSprintC3.metrics.burndownData ++
              [⟨900, activeSprintC3.metrics.totalStoryPoints -
                activeSprintC3.metrics.completedStoryPoints,
                activeSprintC3.metrics.completedStoryPoints⟩]
        ∧ s2.metrics.totalStoryPoints = activeSprintC3.metrics.totalStoryPoints
        ∧ s2.metrics.completedStoryPoints = activeSprintC3.metrics.completedStoryPoints) := by
  refine ⟨?_, ?_⟩
  · exact (complete_spec planningSprintC3 900).1 (by decide)
  · exact (complete_spec activeSprintC3 900).2 rfl

/-- The C1 witness store: sprint 41 in planning and sprint 42 active,
both in project 13. -/
def storeC1 : Store :=
  { sprints := [{ id := 41, project := 13, team := 100 },
                { id := 42, project := 13, team := 100, status := "active" }],
    projects := [{ id := 13, team := 100, currentSprint := some 42 }],
    tasks := [] }

/-- C1: while any sprint of the same project is active, `startSprint`
fails with the Conflict response and leaves the whole store — hence both
sprints — unchanged; independently, the model-level `start` rejects
every sprint that is not in planning. -/
theorem start_conflict_spec (st : Store) (sid now : Nat) (sprint other : Sprint)
    (hfind : findSprint st sid = some sprint)
    (hmem : other ∈ st.sprints) (hproj : other.project = sprint.project)
    (hactive : other.status = "active") :
    startSprint st sid now =
      (st, .failure 400
        "Another sprint is already active. Complete it before starting a new one.")
    ∧ ∀ s now2, s.status ≠ "planning" →
        Sprint.start s now2 = .error "Only sprints in planning status can be started" := by
  constructor
  · have hfound : st.sprints.find?
        (fun s => s.project == sprint.project && s.status == "active") ≠ none := by
      intro hnone
      rw [List.find?_eq_none] at hnone
      exact absurd (by simp [hproj, hactive]) (hnone other hmem)
    unfold startSprint
    rw [hfind]
    cases hcase : st.sprints.find?
        (fun s => s.project == sprint.project && s.status == "active") with
    | none => exact absurd hcase hfound
    | some a => simp only [hcase]
  · intro s now2 h
    simp [Sprint.start, h]

/-- C1 witness: starting the planning sprint 41 while sprint 42 of the
same project is active yields the Conflict response with the store
untouched, and starting the already-active sprint 42 is rejected by the
planning precondition. -/
theorem start_conflict_spec_witness :
    startSprint storeC1 41 0 =
      (storeC1, .failure 400
        "Another sprint is already active. Complete it before starting a new one.")
    ∧ Sprint.start { id := 42, project := 13, team := 100, status := "active" } 0
        = .error "Only sprints in planning status can be started" := by
  have h := start_conflict_spec storeC1 41 0
    { id := 41, project := 13, team := 100 }
    { id := 42, project := 13, team := 100, status := "active" }
    (by decide) (by decide) rfl rfl
  exact ⟨h.1, h.2 _ 0 (by decide)⟩

theorem insertionDedup_mem (l : List Nat) (a : Nat) :
    a ∈ insertionDedup l ↔ a ∈ l := by
  have aux : ∀ (l acc : List Nat),
      a ∈ l.foldl (fun acc b => if acc.contains b then acc else acc ++ [b]) acc ↔
        a ∈ acc ∨ a ∈ l := by
    intro l
    induction l with
    | nil => intro acc; simp
    | cons b bs ih =>
      intro acc
      rw [List.foldl_cons, ih]
      by_cases hb : b ∈ acc
      · rw [if_pos (by simpa using hb)]
        simp only [List.mem_cons]
        constructor
        · rintro (h | h)
          · exact Or.inl h
          · exact Or.inr (Or.inr h)
        · rintro (h | h | h)
          · exact Or.inl h
          · subst h; exact Or.inl hb
          · exact Or.inr h
      · rw [if_neg (by simpa using hb)]
        simp only [List.mem_append, List.mem_singleton, List.mem_cons]
        tauto
  have := aux l []
  simpa [insertionDedup] using this

theorem insertionDedup_nodup (l : List Nat) : (insertionDedup l).Nodup := by
  have aux : ∀ (l acc : List Nat), acc.Nodup →
      (l.foldl (fun acc b => if acc.contains b then acc else acc ++ [b]) acc).Nodup := by
    intro l
    induction l with
    | nil => intro acc h; simpa using h
    | cons b bs ih =>
      intro acc h
      rw [List.foldl_cons]
      by_cases hb : b ∈ acc
      · rw [if_pos (by simpa using hb)]
        exact ih acc h
      · rw [if_neg (by simpa using hb)]
        exact ih _ (by simp [List.nodup_append, h, hb])
  exact aux l [] (by simp)

/-- C9: for team role admin or project_manager the scoped set is the
user ids of all active memberships of the team; for every other role it
is exactly the requester plus the active members whose reportingManager
is the requester — one level, never transitive — without duplicates. -/
theorem getScopedUserIds_spec (members : List TeamMember) (teamId requesterId : Nat)
    (role : String) :
    (isAdminOrProjectManager role = true →
       getScopedUserIds members teamId requesterId role
         = (members.filter (fun m => m.team == teamId && m.status == "active")).map
             (fun m => m.user))
    ∧ (isAdminOrProjectManager role = false →
       (getScopedUserIds members teamId requesterId role).Nodup
       ∧ ∀ u, u ∈ getScopedUserIds members teamId requesterId role ↔
           (u = requesterId ∨ ∃ m, m ∈ members ∧ m.team = teamId ∧ m.status = "active"
             ∧ m.reportingManager = some requesterId ∧ m.user = u)) := by
  constructor
  · intro h
    simp [getScopedUserIds, h]
  · intro h
    constructor
    · simp only [getScopedUserIds, h, Bool.false_eq_true, if_false]
      exact insertionDedup_nodup _
    · intro u
      simp only [getScopedUserIds, h, Bool.false_eq_true, if_false, insertionDedup_mem,
        List.mem_cons, List.mem_map, List.mem_filter, Bool.and_eq_true, beq_iff_eq]
      tauto

/-- A concrete membership list for the C9 witness: requester 1 is a
plain member, user 2 reports to 1, user 3 reports to 2 (a transitive
report). -/
def membersC9 : List TeamMember :=
  [ { team := 100, user := 1, role := "member" },
    { team := 100, user := 2, role := "member", reportingManager := some 1 },
    { team := 100, user := 3, role := "member", reportingManager := some 2 } ]

/-- C9 witness: for the concrete member requester the scoped set is
characterized by the one-level direct-report rule, evaluated at the
transitive report 3 and the direct report 2. -/
theorem getScopedUserIds_spec_witness :
    isAdminOrProjectManager "member" = false
    ∧ ((3 : Nat) ∈ getScopedUserIds membersC9 100 1 "member" ↔
        ((3 : Nat) = 1 ∨ ∃ m, m ∈ membersC9 ∧ m.team = 100 ∧ m.status = "active"
          ∧ m.reportingManager = some 1 ∧ m.user = 3))
    ∧ getScopedUserIds membersC9 100 1 "member" = [1, 2] := by
  refine ⟨rfl, ((getScopedUserIds_spec membersC9 100 1 "member").2 rfl).2 3, by decide⟩

theorem saveSprint_projects (st : Store) (s : Sprint) :
    (saveSprint st s).projects = st.projects := rfl

theorem clearSprintFromTasks_projects (st : Store) (sid : Nat) :
    (clearSprintFromTasks st sid).projects = st.projects := rfl

theorem moveIncompleteTasks_projects (st : Store) (sid target : Nat) :
    (moveIncompleteTasks st sid target).projects = st.projects := rfl

theorem removeSprint_projects (st : Store) (sid : Nat) :
    (removeSprint st sid).projects = st.projects := rfl

theorem findProject_saveSprint (st : Store) (s : Sprint) (pid : Nat) :
    findProject (saveSprint st s) pid = findProject st pid := rfl

theorem setCurrentSprint_projects (st : Store) (pid sid : Nat) :
    (setCurrentSprint st pid sid).projects
      = st.projects.map (fun p =>
          if p.id == pid then { p with currentSprint := some sid } else p) := rfl

theorem unsetCurrentSprint_projects (st : Store) (pid : Nat) :
    (unsetCurrentSprint st pid).projects
      = st.projects.map (fun p =>
          if p.id == pid then { p with currentSprint := none } else p) := rfl

theorem projects_map_if_eq (l : List Project) (pid : Nat) (f : Project → Project) :
    l.map (fun p => if p.id == pid then f p else p)
      = l.map (fun p => if p.id = pid then f p else p) := by
  apply List.map_congr_left
  intro p _
  by_cases hp : p.id = pid <;> simp [hp]

/-- C10: `startSprint`, on success, points the owning project record's
currentSprint at the started sprint; `completeSprint`, on success,
unsets it unconditionally; `cancelSprint`, on success, unsets it only
when it currently points at the cancelled sprint; `deleteSprint` leaves
the project collection untouched in every case. -/
theorem currentSprint_maintenance_spec (st : Store) (sid now : Nat) (sprint : Sprint)
    (mt : Option MoveTarget) (hfind : findSprint st sid = some sprint) :
    ((startSprint st sid now).2 = ApiResult.success →
       (startSprint st sid now).1.projects
         = st.projects.map (fun p =>
             if p.id = sprint.project then { p with currentSprint := some sprint.id } else p))
    ∧ ((completeSprint st sid now mt).2 = ApiResult.success →
       (completeSprint st sid now mt).1.projects
         = st.projects.map (fun p =>
             if p.id = sprint.project then { p with currentSprint := none } else p))
    ∧ (∀ project, (cancelSprint st sid).2 = ApiResult.success →
       findProject st sprint.project = some project →
       (cancelSprint st sid).1.projects
         = if project.currentSprint = some sprint.id
           then st.projects.map (fun p =>
             if p.id = sprint.project then { p with currentSprint := none } else p)
           else st.projects)
    ∧ ((deleteSprint st sid).1.projects = st.projects) := by
  refine ⟨?_, ?_, ?_, ?_⟩
  · intro hsucc
    simp only [startSprint, hfind] at hsucc ⊢
    cases hc : st.sprints.find?
        (fun s => s.project == sprint.project && s.status == "active") with
    | some a => simp [hc] at hsucc
    | none =>
      simp only [hc] at hsucc ⊢
      cases hs : (sprint.updateMetrics st.tasks).start now with
      | error m => simp [hs] at hsucc
      | ok s2 =>
        simp only [hs, setCurrentSprint_projects, saveSprint_projects]
        exact projects_map_if_eq st.projects sprint.project _
  · intro hsucc
    simp only [completeSprint, hfind] at hsucc ⊢
    cases hs : (sprint.updateMetrics st.tasks).complete now with
    | error m => simp [hs] at hsucc
    | ok s2 =>
      cases mt with
      | none =>
        simp only [hs, unsetCurrentSprint_projects, saveSprint_projects]
        exact projects_map_if_eq st.projects sprint.project _
      | some tgt =>
        cases tgt with
        | backlog =>
          simp only [hs, unsetCurrentSprint_projects, saveSprint_projects]
          exact projects_map_if_eq st.projects sprint.project _
        | toSprint t =>
          simp only [hs, moveIncompleteTasks_projects, unsetCurrentSprint_projects,
            saveSprint_projects]
          exact projects_map_if_eq st.projects sprint.project _
  · intro project hsucc hproj
    simp only [cancelSprint, hfind] at hsucc ⊢
    cases hcan : sprint.cancel with
    | error m => simp [hcan] at hsucc
    | ok s1 =>
      simp only [hcan, findProject_saveSprint, hproj] at hsucc ⊢
      by_cases hcur : project.currentSprint = some sprint.id
      · rw [if_pos hcur,
          if_pos (show (project.currentSprint == some sprint.id) = true by simpa using hcur)]
        simp only [clearSprintFromTasks_projects, unsetCurrentSprint_projects,
          saveSprint_projects]
        exact projects_map_if_eq st.projects sprint.project _
      · rw [if_neg hcur,
          if_neg (show ¬(project.currentSprint == some sprint.id) = true by simpa using hcur)]
        simp only [clearSprintFromTasks_projects, saveSprint_projects]
  · simp only [deleteSprint, hfind]
    by_cases hg : (sprint.status == "active" || sprint.status == "completed") = true
    · simp [hg]
    · simp [hg, removeSprint_projects, clearSprintFromTasks_projects]

/-- The C10 witness store: one planning sprint, its project record. -/
def storeC10 : Store :=
  { sprints := [{ id := 51, project := 14, team := 100 }],
    projects := [{ id := 14, team := 100 }], tasks := [] }

/-- The sprint stored in `storeC10`. -/
def sprintC10 : Sprint := { id := 51, project := 14, team := 100 }

/-- C10 witness: in the concrete store, a successful start points the
project's currentSprint at sprint 51, and deleteSprint leaves the
project collection untouched. -/
theorem currentSprint_maintenance_spec_witness :
    findSprint storeC10 51 = some sprintC10
    ∧ (startSprint storeC10 51 777).1.projects
        = storeC10.projects.map (fun p =>
            if p.id = sprintC10.project then { p with currentSprint := some sprintC10.id }
            else p)
    ∧ (deleteSprint storeC10 51).1.projects = storeC10.projects := by
  have h := currentSprint_maintenance_spec storeC10 51 777 sprintC10 none (by decide)
  exact ⟨by decide, h.1 (by decide), h.2.2.2⟩

end WorkTracker
